import Mathlib

/-!
Verification of the bulk account-lifecycle batch processor
(`dataverse_apis`): a shallow embedding, in Lean 4, of the Python
modules `core/services/dataverse_client.py`,
`features/account/account_operations.py`,
`features/timeline/note_operations.py` and
`tasks/account/account_tasks.py`, together with theorems about the
circuit breaker, the batch drivers, the key resolver, the lifecycle
operations and the output-path selection.

Python dictionaries are modelled by the inductive type `PyVal`
(`PyVal.none` stands both for Python `None` and for a pandas NA cell);
Python exceptions are modelled by `Except String`; the HTTP transport
underneath `call_dataverse` is modelled by the inductive `HttpResult`.
All definitions are executable, so closed facts evaluate by `rfl` or
`decide`.
-/

namespace DataverseApi

/-- Model of a Python/JSON value as it flows through the repository:
`none` covers Python `None` and pandas NA, dictionaries keep insertion
order with unique keys. -/
inductive PyVal where
  | none
  | int (n : Int)
  | str (s : String)
  | bool (b : Bool)
  | list (xs : List PyVal)
  | dict (fs : List (String × PyVal))

/-- Ordered-association lookup: the value at the first matching key,
`None` when the key is absent.  This is both `dict[key]` access on the
field lists and `row[col]` access on a pandas row (where `PyVal.none`
stands for NA). -/
def getCell : List (String × PyVal) → String → PyVal
  | [], _ => .none
  | (k1, v) :: rest, k => if k1 = k then v else getCell rest k

/-- `d.get k` - Python `dict.get(key)`: the value at the first matching
key, `None` when the key is absent or the receiver is not a dict. -/
def PyVal.get (d : PyVal) (k : String) : PyVal :=
  match d with
  | .dict fs => getCell fs k
  | _ => .none

/-- Python truthiness (`bool(v)`). -/
def PyVal.truthy : PyVal → Bool
  | .none => false
  | .int n => n != 0
  | .str s => s != ""
  | .bool b => b
  | .list xs => !xs.isEmpty
  | .dict fs => !fs.isEmpty

/-- `pd.notna(v)`: everything except `None`/NaN counts as present. -/
def notNa : PyVal → Bool
  | .none => false
  | _ => true

/-- A single-quote character, used by the Python `repr` of strings. -/
def sq : String := String.mk [Char.ofNat 39]

mutual
/-- Python `repr` restricted to the values of this model. -/
def pyRepr : PyVal → String
  | .none => "None"
  | .int n => toString n
  | .bool b => if b then "True" else "False"
  | .str s => sq ++ s ++ sq
  | .list xs => "[" ++ pyReprList xs ++ "]"
  | .dict fs => "\x7b" ++ pyReprDict fs ++ "\x7d"
def pyReprList : List PyVal → String
  | [] => ""
  | [x] => pyRepr x
  | x :: xs => pyRepr x ++ ", " ++ pyReprList xs
def pyReprDict : List (String × PyVal) → String
  | [] => ""
  | [(k, v)] => sq ++ k ++ sq ++ ": " ++ pyRepr v
  | (k, v) :: xs => sq ++ k ++ sq ++ ": " ++ pyRepr v ++ ", " ++ pyReprDict xs
end

/-- Python `str(v)`: identity on strings, `repr` otherwise. -/
def pyStr : PyVal → String
  | .str s => s
  | v => pyRepr v

/-- `setKey fs k v` - Python `d[k] = v` on an insertion-ordered dict:
replace in place when the key exists, append otherwise. -/
def setKey : List (String × PyVal) → String → PyVal → List (String × PyVal)
  | [], k, v => [(k, v)]
  | (k1, v1) :: rest, k, v =>
      if k1 = k then (k, v) :: rest else (k1, v1) :: setKey rest k v

/-- `mergeInto base upd` - Python `\x7b**base, **upd\x7d`: keys of `upd`
override keys of `base`, later keys are appended in order. -/
def mergeInto (base upd : List (String × PyVal)) : List (String × PyVal) :=
  upd.foldl (fun acc kv => setKey acc kv.1 kv.2) base

/-- The fields of a dict value (`**v` requires a dict). -/
def PyVal.fields : PyVal → List (String × PyVal)
  | .dict fs => fs
  | _ => []

/-- Decidable character-list prefix test. -/
def isPrefixOfList : List Char → List Char → Bool
  | [], _ => true
  | _ :: _, [] => false
  | a :: as, b :: bs => a = b && isPrefixOfList as bs

/-- Decidable character-list infix test. -/
def hasInfixList (pat : List Char) : List Char → Bool
  | [] => isPrefixOfList pat []
  | c :: cs => isPrefixOfList pat (c :: cs) || hasInfixList pat cs

/-- Python `pat in hay` on strings: substring containment. -/
def strContains (hay pat : String) : Bool :=
  hasInfixList pat.toList hay.toList

/-- The whitespace characters removed by Python `str.strip()`. -/
def isPyWs (c : Char) : Bool :=
  c = ' ' || c = Char.ofNat 9 || c = Char.ofNat 10 || c = Char.ofNat 13
    || c = Char.ofNat 11 || c = Char.ofNat 12

/-- Python `s.strip()`. -/
def pyStrip (s : String) : String :=
  String.mk (((s.toList.dropWhile isPyWs).reverse.dropWhile isPyWs).reverse)

/-- ASCII upper-casing of one character (Python `str.upper` on the
method names used in this repository). -/
def upperChar (c : Char) : Char :=
  if 97 ≤ c.toNat && c.toNat ≤ 122 then Char.ofNat (c.toNat - 32) else c

/-- Python `s.upper()` for ASCII strings. -/
def upperStr (s : String) : String := String.mk (s.toList.map upperChar)

/-- Python `x == 401` where `x` came out of a dict: true only for the
integer 401. -/
def isInt401 : PyVal → Bool
  | .int n => n = 401
  | _ => false

/-! ## core/services/dataverse_client.py -/

/-- The body of an HTTP response as `call_dataverse` can observe it:
no content, content that parses as a JSON object, or content that is
not valid JSON (`response.json()` raises `ValueError`). -/
inductive HttpBody where
  | empty
  | json (fs : List (String × PyVal))
  | raw (s : String)

/-- Outcome of the underlying `requests` call: either a response with a
numeric status code and a body, or an exception raised before any
response was received (network error and the like). -/
inductive HttpResult where
  | resp (code : Nat) (body : HttpBody)
  | exn (msg : String)

/-- The HTTP verbs `call_dataverse` dispatches on. -/
def allowedMethods : List String := ["GET", "POST", "PUT", "PATCH", "DELETE"]

/-- The error envelope built by the `except` branches of
`call_dataverse`. -/
def errEnvelope (msg : String) (code details : PyVal) : PyVal :=
  .dict [("status", .str "error"), ("status_code", code),
         ("error", .str msg), ("details", details)]

/-- `call_dataverse` (dataverse_client.py, lines 29-128), as a function
of the method name and of the transport outcome.  `raise_for_status`
raises exactly for codes in [400, 600); an unsupported method raises
`ValueError`, which the final `except Exception` turns into an
"Unexpected error" envelope; on success the parsed JSON payload is
merged over `\x7b"status": "success", "status_code": code\x7d` with
payload keys winning. -/
def callDataverse (method : String) (t : HttpResult) : PyVal :=
  let m := upperStr method
  if !(allowedMethods.contains m) then
    errEnvelope ("Unexpected error: HTTP method not supported: " ++ m) .none .none
  else
    match t with
    | .exn msg => errEnvelope ("Unexpected error: " ++ msg) .none .none
    | .resp code body =>
      if 400 ≤ code && code < 600 then
        let details : PyVal :=
          match body with
          | .json fs => .dict fs
          | .raw s => .str s
          | .empty => .str ""
        if code = 401 then
          errEnvelope "401 Unauthorized: access token expired or invalid"
            (.int code) details
        else
          errEnvelope ("HTTP " ++ toString (code : Int)) (.int code) details
      else
        let payload : List (String × PyVal) :=
          match body with
          | .empty => []
          | .json fs => fs
          | .raw s => [("raw", .str s)]
        .dict (mergeInto
          [("status", .str "success"), ("status_code", .int code)] payload)

/-! ## tasks/account/account_tasks.py : circuit breaker -/

/-- `_handle_expired_token` (account_tasks.py, lines 29-50) stripped of
its progress-bar and console side effects: status code equal to the
integer 401, or the text of `error` containing the substring "401". -/
def handleExpiredToken (resp : PyVal) : Bool :=
  let statusCode := resp.get "status_code"
  let errVal := resp.get "error"
  let errorMsg := pyStr (if errVal.truthy then errVal else .str "")
  isInt401 statusCode || strContains errorMsg "401"

/-! ## features/timeline/note_operations.py -/

/-- `DEACTIVATION_SIGNATURE` (note_operations.py, line 4). -/
def DEACTIVATION_SIGNATURE : String := "This account was deactivated on "

/-- One annotation record as the notes query sees it. -/
structure Note where
  createdon : Nat
  notetext : String
  annotationid : String

/-- Insertion step of a sort by `createdon` descending. -/
def insertByCreatedDesc (n : Note) : List Note → List Note
  | [] => [n]
  | m :: ms =>
      if m.createdon ≤ n.createdon then n :: m :: ms
      else m :: insertByCreatedDesc n ms

/-- Sort notes by `createdon` descending (`$orderby=createdon desc`). -/
def sortByCreatedDesc (ns : List Note) : List Note :=
  ns.foldr insertByCreatedDesc []

/-- The OData query issued by `find_last_deactivation_note_for_account`
(note_operations.py, lines 38-46), evaluated against the notes of the
target account: order by `createdon` descending, keep the notes whose
`notetext` contains `DEACTIVATION_SIGNATURE`, take the top one, and
wrap the selection as the `value` list of a Gateway envelope. -/
def annotationsQuery (notes : List Note) : PyVal :=
  let hits := (sortByCreatedDesc notes).filter
    (fun n => strContains n.notetext DEACTIVATION_SIGNATURE)
  .dict [("status", .str "success"), ("status_code", .int 200),
         ("value", .list ((hits.take 1).map (fun n =>
           .dict [("annotationid", .str n.annotationid),
                  ("createdon", .int n.createdon),
                  ("notetext", .str n.notetext)])))]

/-- `find_last_deactivation_note_for_account` (note_operations.py,
lines 32-57) applied to the envelope the query returned: the
`annotationid` of the first record of `value`, `None` when the list is
empty or anything goes wrong (the function catches every exception). -/
def findLastDeactivationNote (resp : PyVal) : PyVal :=
  let value := resp.get "value"
  if value.truthy then
    match value with
    | .list (x :: _) => x.get "annotationid"
    | _ => .none
  else
    .none

/-! ## features/account/account_operations.py -/

/-- The note body built by `deactivate_account_with_note`
(account_operations.py, lines 51-60): an optional reason followed by
the mandatory attribution, both rendered through Python f-strings. -/
def noteBody (reason performedBy : PyVal) : String :=
  let reasonHtml := if reason.truthy then pyStr reason ++ "<br>" else ""
  reasonHtml ++ "Action performed by: " ++ pyStr performedBy ++ "<br>"

/-- `deactivate_account_with_note` (account_operations.py, lines
30-74), as a function of the outcomes of its two Gateway-touching
stages: `dCall` is the `deactivate_account` call, `nCall` is the
`create_account_note` call as a function of the note body.  A stage
that raises is an `Except.error` carrying `str(exc)`; the single
`try/except` of the source catches it and records it in `error`. -/
def deactivateWithNote (accountId reason performedBy : PyVal)
    (dCall : Except String PyVal)
    (nCall : String → Except String PyVal) : PyVal :=
  let base : List (String × PyVal) :=
    [("account_id", accountId), ("deactivated", .bool false),
     ("note_created", .bool false), ("error", .none)]
  match dCall with
  | .error e => .dict (setKey base "error" (.str e))
  | .ok dresp =>
    let r1 := setKey (setKey base "deactivated" (.bool true))
      "deactivate_response" dresp
    match nCall (noteBody reason performedBy) with
    | .error e => .dict (setKey r1 "error" (.str e))
    | .ok nresp =>
        .dict (setKey (setKey r1 "note_created" (.bool true))
          "note_response" nresp)

/-- `reactivate_account_and_delete_note` (account_operations.py, lines
89-130): `rCall` is the `reactivate_account` call, `findResult` the
value `find_last_deactivation_note_for_account` would return, `delCall`
the `delete_note_by_id` call (total: that function catches its own
exceptions).  The note to delete is the caller-supplied `note_id` when
truthy, otherwise the search result; a missing note leaves
`note_deleted` false with no error. -/
def reactivateAndDeleteNote (accountId noteId : PyVal)
    (rCall : Except String PyVal) (findResult : PyVal)
    (delCall : PyVal → PyVal) : PyVal :=
  let base : List (String × PyVal) :=
    [("account_id", accountId), ("reactivated", .bool false),
     ("note_deleted", .bool false), ("error", .none)]
  match rCall with
  | .error e => .dict (setKey base "error" (.str e))
  | .ok rresp =>
    let r1 := setKey (setKey base "reactivated" (.bool true))
      "reactivate_response" rresp
    let target := if noteId.truthy then noteId else findResult
    if target.truthy then
      let dresp := delCall target
      .dict (setKey (setKey r1 "note_deleted" (.bool true))
        "note_delete_response" dresp)
    else
      .dict (setKey r1 "note_deleted" (.bool false))

/-! ## tasks/fetch_accounts.py -/

/-- The record-selection step of `get_account_id_by_bus_id`
(fetch_accounts.py, lines 10-17) applied to the Gateway envelope of the
natural-key query: the `accountid` of the first matching record,
`None` when `value` is empty or absent. -/
def getAccountIdByBusId (resp : PyVal) : PyVal :=
  match resp.get "value" with
  | .list (x :: _) => x.get "accountid"
  | _ => .none

/-- Modelled from the spec: account_tasks.py imports
`get_account_id_by_bus_id` from features/account/account_operations.py
and reads `resp.get("status_code")`, `resp.get("error")` and
`resp.get("account_id")` from its result, but that function is absent
from src/ (only the plain-string variant in tasks/fetch_accounts.py is
present).  Per the spec, the resolver "is used to query the Gateway for
the record whose natural key equals that value; the first matching
record identifier is written": the envelope of the query, enriched with
the first matching record identifier under the key "account_id". -/
def getAccountIdEnvelope (resp : PyVal) : PyVal :=
  .dict (setKey resp.fields "account_id" (getAccountIdByBusId resp))

/-! ## tasks/account/account_tasks.py : key resolver and batch drivers

A pandas row is an insertion-ordered association of column name to
cell value (`PyVal.none` stands for NA); the column list of the frame
is carried separately, mirroring `df.columns`. -/

/-- The bus-id detection loop shared by the resolver (account_tasks.py,
lines 216-220) and the drivers (lines 340-349, 444-453): the first
column of `busCols` that is present in `cols` and holds a non-NA cell
yields `str(cell).strip()` - the loop breaks at the first non-NA
column even when the stripped text is empty. -/
def firstNotNaStrip (cols busCols : List String) (row : List (String × PyVal)) :
    Option String :=
  match busCols with
  | [] => Option.none
  | c :: cs =>
      if cols.contains c && notNa (getCell row c) then
        Option.some (pyStrip (pyStr (getCell row c)))
      else firstNotNaStrip cols cs row

/-- A `None`-or-string value as the drivers store it in an outcome. -/
def optPy : Option String → PyVal
  | Option.none => .none
  | Option.some s => .str s

/-- Output of the resolver loop: the updated rows, the natural keys
sent to the Gateway in order, and whether an expired token halted the
pass. -/
structure ResolveOut where
  rows : List (List (String × PyVal))
  calls : List String
  halted : Bool

/-- The row loop of `_resolve_account_ids_from_df` (account_tasks.py,
lines 202-244): a row with a non-NA `idCol` cell is skipped without a
Gateway call; otherwise the first non-NA natural key is taken (and the
row skipped when it strips to the empty string); otherwise the Gateway
is queried, the breaker is consulted on the response - on a fatal
response the loop breaks before writing the cell - and the identifier
field of the response is written into `idCol`. -/
def resolveLoop (cols busCols : List String) (idCol : String)
    (lookup : String → PyVal) :
    List (List (String × PyVal)) → ResolveOut
  | [] => ⟨[], [], false⟩
  | row :: rest =>
    if notNa (getCell row idCol) then
      let o := resolveLoop cols busCols idCol lookup rest
      ⟨row :: o.rows, o.calls, o.halted⟩
    else
      match firstNotNaStrip cols busCols row with
      | Option.none =>
          let o := resolveLoop cols busCols idCol lookup rest
          ⟨row :: o.rows, o.calls, o.halted⟩
      | Option.some s =>
          if s = "" then
            let o := resolveLoop cols busCols idCol lookup rest
            ⟨row :: o.rows, o.calls, o.halted⟩
          else
            let resp := lookup s
            if handleExpiredToken resp then
              ⟨row :: rest, [s], true⟩
            else
              let row2 := setKey row idCol (resp.get "account_id")
              let o := resolveLoop cols busCols idCol lookup rest
              ⟨row2 :: o.rows, s :: o.calls, o.halted⟩

/-- `_resolve_account_ids_from_df` (account_tasks.py, lines 174-245):
default the key columns to `["BUS ID"]`, raise `ValueError` when none
of them is a column of the frame, add the identifier column when
absent, then run the row loop.  The returned pair is the column list
of the result frame and the loop output. -/
def resolveAccountIds (cols busCols0 : List String) (idCol : String)
    (lookup : String → PyVal) (rows : List (List (String × PyVal))) :
    Except String (List String × ResolveOut) :=
  let busCols := if busCols0.isEmpty then ["BUS ID"] else busCols0
  if !(busCols.any (fun c => cols.contains c)) then
    .error "None of the BUS ID columns were found in the DataFrame."
  else
    let cols2 := if cols.contains idCol then cols else cols ++ [idCol]
    .ok (cols2, resolveLoop cols2 busCols idCol lookup rows)

/-- Output of a driver loop: the accumulated outcome dicts in append
order, and whether the expired-token branch broke the loop. -/
structure DriveOut where
  results : List PyVal
  halted : Bool

/-- The row loop of `call_deactivate_accounts` (account_tasks.py, lines
306-369).  A row without a truthy identifier gets one "accountid not
found" outcome (the bus-id preview there iterates `bus_id_columns or
[]`, without the `"BUS ID"` default).  Otherwise the per-row reason and
the bus id are computed, `deactivate_account_with_note` is invoked
through `op`, its outcome is appended (line 361), then
`_append_result_and_handle_token` appends the same outcome again (line
59) and consults `_handle_expired_token` on it; a fatal outcome breaks
the loop. -/
def deactivateLoop (cols busCols0 : List String)
    (reasonColumn : Option String) (reasonText : PyVal)
    (op : PyVal → PyVal → PyVal) :
    List (List (String × PyVal)) → DriveOut
  | [] => ⟨[], false⟩
  | row :: rest =>
    let accountId := getCell row "account_id"
    if !accountId.truthy then
      let preview := firstNotNaStrip cols busCols0 row
      let entry : PyVal := .dict
        [("bus_id", optPy preview), ("account_id", .none),
         ("deactivated", .bool false), ("note_created", .bool false),
         ("error", .str "accountid not found")]
      let o := deactivateLoop cols busCols0 reasonColumn reasonText op rest
      ⟨entry :: o.results, o.halted⟩
    else
      let rowReason : PyVal :=
        match reasonColumn with
        | Option.none => .none
        | Option.some rc =>
            if cols.contains rc then
              if notNa (getCell row rc) then
                .str (pyStrip (pyStr (getCell row rc)))
              else .none
            else .none
      let finalReason := if reasonText.truthy then reasonText else rowReason
      let busCols := if busCols0.isEmpty then ["BUS ID"] else busCols0
      let busVal := firstNotNaStrip cols busCols row
      let resp := op accountId finalReason
      let entry : PyVal := .dict (mergeInto [("bus_id", optPy busVal)] resp.fields)
      if handleExpiredToken resp then
        ⟨[entry, entry], true⟩
      else
        let o := deactivateLoop cols busCols0 reasonColumn reasonText op rest
        ⟨entry :: entry :: o.results, o.halted⟩

/-- The row loop of `call_reactivate_accounts` (account_tasks.py, lines
440-488): the bus id (with the `"BUS ID"` default) is computed first; a
row without a truthy identifier gets one "accountid not found" outcome;
otherwise the optional note id is read from `noteIdColumn`,
`reactivate_account_and_delete_note` is invoked through `op` with
`str(account_id).strip()`, the outcome is appended (line 481), appended
again by `_append_result_and_handle_token` (line 487), and a fatal
outcome breaks the loop. -/
def reactivateLoop (cols busCols0 : List String)
    (noteIdColumn : Option String) (op : String → PyVal → PyVal) :
    List (List (String × PyVal)) → DriveOut
  | [] => ⟨[], false⟩
  | row :: rest =>
    let accountId := getCell row "account_id"
    let busCols := if busCols0.isEmpty then ["BUS ID"] else busCols0
    let busVal := firstNotNaStrip cols busCols row
    if !accountId.truthy then
      let entry : PyVal := .dict
        [("bus_id", optPy busVal), ("account_id", .none),
         ("reactivated", .bool false), ("note_deleted", .bool false),
         ("error", .str "accountid not found")]
      let o := reactivateLoop cols busCols0 noteIdColumn op rest
      ⟨entry :: o.results, o.halted⟩
    else
      let noteId : PyVal :=
        match noteIdColumn with
        | Option.none => .none
        | Option.some nc =>
            if cols.contains nc then
              if notNa (getCell row nc) then
                .str (pyStrip (pyStr (getCell row nc)))
              else .none
            else .none
      let resp := op (pyStrip (pyStr accountId)) noteId
      let entry : PyVal := .dict (mergeInto [("bus_id", optPy busVal)] resp.fields)
      if handleExpiredToken resp then
        ⟨[entry, entry], true⟩
      else
        let o := reactivateLoop cols busCols0 noteIdColumn op rest
        ⟨entry :: entry :: o.results, o.halted⟩

/-! ## Object-identity model of the DataFrame pipeline (aliasing)

`call_deactivate_accounts` and `call_reactivate_accounts` share
`_load_df` (account_tasks.py, lines 146-172), which returns
`df.copy()` for a DataFrame argument, and
`_resolve_account_ids_from_df`, which copies again (line 179) and
performs its `df.at` writes on that second copy.  To reason about
mutation of the caller object, frames are held in an explicit store of
reference/value pairs: `storeAlloc` models the allocation performed by
`DataFrame.copy()`, `storeSet` models in-place mutation. -/

/-- A store of allocated frames: reference paired with the row list. -/
def Store := List (Nat × List (List (String × PyVal)))

/-- The largest reference in use. -/
def storeMax : Store → Nat
  | [] => 0
  | (r, _) :: rest => max r (storeMax rest)

/-- Dereference. -/
def storeGet : Store → Nat → Option (List (List (String × PyVal)))
  | [], _ => Option.none
  | (r, v) :: rest, q => if r = q then Option.some v else storeGet rest q

/-- Allocate a fresh reference holding `v` (a `copy()`). -/
def storeAlloc (s : Store) (v : List (List (String × PyVal))) : Store × Nat :=
  let r := storeMax s + 1
  ((r, v) :: s, r)

/-- Mutate the frame behind an existing reference in place. -/
def storeSet : Store → Nat → List (List (String × PyVal)) → Store
  | [], _, _ => []
  | (r, v) :: rest, q, w =>
      if r = q then (q, w) :: rest else (r, v) :: storeSet rest q w

/-- The mutating prefix of both batch drivers on a DataFrame argument
held behind reference `r`: `_load_df` copies it, the resolver copies
the copy and performs all identifier writes on that second copy (a
resolver `ValueError` propagates before any write).  Returns the store
after the pipeline and the reference of the resolved frame. -/
def loadAndResolveStore (s : Store) (r : Nat) (cols busCols0 : List String)
    (lookup : String → PyVal) : Store × Nat :=
  match storeGet s r with
  | Option.none => (s, r)
  | Option.some v =>
    let a1 := storeAlloc s v
    let a2 := storeAlloc a1.1 v
    match resolveAccountIds cols busCols0 "account_id" lookup v with
    | .error _ => (a2.1, a2.2)
    | .ok out => (storeSet a2.1 a2.2 out.2.rows, a2.2)

/-! ## Output-path selection (`_save_results_with_logging`) -/

/-- POSIX model of `Path.is_absolute`. -/
def isAbsolutePath (p : String) : Bool := isPrefixOfList ['/'] p.toList

/-- `Path.name`: the final path component. -/
def fileNameOf (p : String) : String := ((p.splitOn "/").getLastD p)

/-- `Path.parent` rendered as a string. -/
def parentOf (p : String) : String :=
  String.intercalate "/" ((p.splitOn "/").dropLast)

/-- The path selection of `_save_results_with_logging`
(account_tasks.py, lines 90-96): the default path when `output_path` is
`None`; an absolute `output_path` as given; otherwise the file name of
`output_path` under the parent of the default path. -/
def finalSavePath (outputPath : Option String) (defaultOutputPath : String) :
    String :=
  match outputPath with
  | Option.none => defaultOutputPath
  | Option.some p =>
      if isAbsolutePath p then p
      else parentOf defaultOutputPath ++ "/" ++ fileNameOf p

/-- `DEFAULT_OUTPUT_PATH` (account_tasks.py, line 24), as a function of
the data directory `DEFAULT_DATA_DIR` of the installation. -/
def DEFAULT_OUTPUT_PATH (dataDir : String) : String :=
  dataDir ++ "/deactivated_accounts_results.xlsx"

/-- `DEFAULT_REACTIVATION_OUTPUT_NAME` (account_tasks.py, line 25). -/
def DEFAULT_REACTIVATION_OUTPUT_NAME : String :=
  "reactivated_accounts_results.xlsx"

/-- The save path of `call_deactivate_accounts` (account_tasks.py,
lines 374-381): `_save_results_with_logging` with
`default_output_path=DEFAULT_OUTPUT_PATH`. -/
def deactivateSavePath (dataDir : String) (outputPath : Option String) :
    String :=
  finalSavePath outputPath (DEFAULT_OUTPUT_PATH dataDir)

/-- The save path of `call_reactivate_accounts` (account_tasks.py,
lines 494-501): it too passes `default_output_path=DEFAULT_OUTPUT_PATH`
- the constant `DEFAULT_REACTIVATION_OUTPUT_NAME` is referenced nowhere
in the module. -/
def reactivateSavePath (dataDir : String) (outputPath : Option String) :
    String :=
  finalSavePath outputPath (DEFAULT_OUTPUT_PATH dataDir)

/-! ## Concrete instances used by the theorems -/

/-- A Gateway result with optional `status_code` and `error` fields
(absent keys model both a missing field and a `None` one, which
`dict.get` conflates). -/
def mkResult (sc : Option Int) (err : Option String) : PyVal :=
  .dict ((match sc with
    | Option.some n => [("status_code", PyVal.int n)]
    | Option.none => []) ++
   (match err with
    | Option.some e => [("error", PyVal.str e)]
    | Option.none => []))

/-- The envelope `call_dataverse` returns for an HTTP 401 response. -/
def env401 : PyVal := callDataverse "PATCH" (.resp 401 .empty)

/-- The envelope `call_dataverse` returns for a 204 success. -/
def envOk204 : PyVal := callDataverse "PATCH" (.resp 204 .empty)

/-- The envelope `call_dataverse` returns for a note-creation 201. -/
def envNoteOk : PyVal :=
  callDataverse "POST" (.resp 201 (.json [("annotationid", .str "n1")]))

/-- `deactivate_account_with_note` when the state-change call comes
back as the 401 envelope and the note call succeeds. -/
def opExpired : PyVal → PyVal → PyVal := fun aid reason =>
  deactivateWithNote aid reason (.str "ops") (Except.ok env401)
    (fun _ => Except.ok envNoteOk)

/-- `deactivate_account_with_note` when both calls succeed. -/
def opOk : PyVal → PyVal → PyVal := fun aid reason =>
  deactivateWithNote aid reason (.str "ops") (Except.ok envOk204)
    (fun _ => Except.ok envNoteOk)

/-- `reactivate_account_and_delete_note` when the state-change call
succeeds and no deactivation note exists. -/
def opReactOk : String → PyVal → PyVal := fun aid nid =>
  reactivateAndDeleteNote (.str aid) nid (Except.ok envOk204) PyVal.none
    (fun _ => envOk204)

/-- An input row with a resolved identifier. -/
def rowB1 : List (String × PyVal) := [("BUS ID", .str "B1"), ("account_id", .str "id1")]

/-- A second input row with a resolved identifier. -/
def rowB2 : List (String × PyVal) := [("BUS ID", .str "B2"), ("account_id", .str "id2")]

/-- A record store for the resolver: exactly one account, with natural
key "X". -/
def storeC5 : String → List PyVal :=
  fun b => if b = "X" then [PyVal.dict [("accountid", PyVal.str "id-X")]] else []

/-- The resolver lookup as wired in the source: the Gateway natural-key
query composed with the identifier-extraction of
`get_account_id_by_bus_id`. -/
def lookupViaGateway (store : String → List PyVal) : String → PyVal :=
  fun busId => getAccountIdEnvelope
    (callDataverse "GET" (.resp 200 (.json [("value", .list (store busId))])))

/-- A row whose first key column holds only whitespace, whose second
key column holds the key "X" of an existing record, and whose
identifier cell is NA. -/
def rowC5 : List (String × PyVal) :=
  [("A", .str " "), ("B", .str "X"), ("account_id", .none)]

/-- A 200 response whose JSON payload itself carries an "error" key. -/
def envC8bad : PyVal :=
  callDataverse "GET" (.resp 200 (.json [("error", .str "boom")]))

/-- A simple resolver lookup that always finds an identifier. -/
def lkW : String → PyVal :=
  fun s => PyVal.dict [("status_code", PyVal.int 200),
                       ("account_id", PyVal.str ("id-" ++ s))]

/-! ## Helper lemmas -/

theorem getCell_setKey (fs : List (String × PyVal)) (k1 : String) (v : PyVal) (k : String) :
    getCell (setKey fs k1 v) k = if k1 = k then v else getCell fs k := by
  induction fs with
  | nil => rfl
  | cons p rest ih =>
    obtain ⟨k2, v2⟩ := p
    show getCell (if k2 = k1 then (k1, v) :: rest else (k2, v2) :: setKey rest k1 v) k = _
    by_cases h12 : k2 = k1
    · rw [if_pos h12]
      subst h12
      show (if k2 = k then v else getCell rest k) = _
      by_cases hk : k2 = k
      · rw [if_pos hk, if_pos hk]
      · rw [if_neg hk, if_neg hk]
        show getCell rest k = if k2 = k then v2 else getCell rest k
        rw [if_neg hk]
    · rw [if_neg h12]
      show (if k2 = k then v2 else getCell (setKey rest k1 v) k) = _
      by_cases hk2 : k2 = k
      · rw [if_pos hk2, if_neg (fun h : k1 = k => h12 (hk2.trans h.symm))]
        show v2 = if k2 = k then v2 else getCell rest k
        rw [if_pos hk2]
      · rw [if_neg hk2, ih]
        by_cases hk1 : k1 = k
        · rw [if_pos hk1, if_pos hk1]
        · rw [if_neg hk1, if_neg hk1]
          show getCell rest k = if k2 = k then v2 else getCell rest k
          rw [if_neg hk2]

theorem getCell_mergeInto (base upd : List (String × PyVal)) (k : String)
    (h : ¬ k ∈ upd.map Prod.fst) :
    getCell (mergeInto base upd) k = getCell base k := by
  induction upd generalizing base with
  | nil => rfl
  | cons p rest ih =>
    obtain ⟨k1, v1⟩ := p
    simp only [List.map_cons, List.mem_cons] at h
    push_neg at h
    have step : mergeInto base ((k1, v1) :: rest) = mergeInto (setKey base k1 v1) rest := rfl
    rw [step, ih _ h.2, getCell_setKey]
    rw [if_neg (fun hh => h.1 hh.symm)]

theorem filter_nil_of_all_false {α : Type} (p : α → Bool) (l : List α)
    (h : ∀ a ∈ l, p a = false) : l.filter p = [] := by
  induction l with
  | nil => rfl
  | cons a as ih =>
    have ha := h a (List.mem_cons_self a as)
    simp only [List.filter, ha]
    exact ih fun b hb => h b (List.mem_cons_of_mem a hb)

theorem mem_insertByCreatedDesc {m n : Note} {l : List Note}
    (h : m ∈ insertByCreatedDesc n l) : m = n ∨ m ∈ l := by
  induction l with
  | nil => simp [insertByCreatedDesc] at h; exact Or.inl h
  | cons a as ih =>
    simp only [insertByCreatedDesc] at h
    by_cases hle : a.createdon ≤ n.createdon
    · simp [hle] at h
      rcases h with h | h | h
      · exact Or.inl h
      · exact Or.inr (by simp [h])
      · exact Or.inr (by simp [h])
    · simp [hle] at h
      rcases h with h | h
      · exact Or.inr (by simp [h])
      · rcases ih h with h2 | h2
        · exact Or.inl h2
        · exact Or.inr (List.mem_cons_of_mem a h2)

theorem mem_sortByCreatedDesc {m : Note} {l : List Note}
    (h : m ∈ sortByCreatedDesc l) : m ∈ l := by
  induction l generalizing m with
  | nil => simp [sortByCreatedDesc] at h
  | cons a as ih =>
    have h2 : m ∈ insertByCreatedDesc a (sortByCreatedDesc as) := h
    rcases mem_insertByCreatedDesc h2 with h3 | h3
    · simp [h3]
    · exact List.mem_cons_of_mem a (ih h3)

theorem storeGet_le_max (s : Store) (r : Nat) (v : List (List (String × PyVal)))
    (h : storeGet s r = Option.some v) : r ≤ storeMax s := by
  induction s with
  | nil => simp [storeGet] at h
  | cons p rest ih =>
    obtain ⟨q, w⟩ := p
    by_cases hq : q = r
    · subst hq; simp [storeMax]
    · simp only [storeGet, if_neg hq] at h
      have := ih h
      simp only [storeMax]
      omega

theorem storeGet_set_ne (s : Store) (q : Nat) (w : List (List (String × PyVal))) (r : Nat)
    (h : r ≠ q) : storeGet (storeSet s q w) r = storeGet s r := by
  induction s with
  | nil => rfl
  | cons p rest ih =>
    obtain ⟨q1, w1⟩ := p
    show storeGet (if q1 = q then (q, w) :: rest else (q1, w1) :: storeSet rest q w) r = _
    by_cases h1 : q1 = q
    · rw [if_pos h1]
      show (if q = r then Option.some w else storeGet rest r) = _
      rw [if_neg (fun hh => h hh.symm)]
      subst h1
      show storeGet rest r = if q1 = r then Option.some w1 else storeGet rest r
      rw [if_neg (fun hh => h hh.symm)]
    · rw [if_neg h1]
      show (if q1 = r then Option.some w1 else storeGet (storeSet rest q w) r) = _
      by_cases h2 : q1 = r
      · rw [if_pos h2]
        show _ = if q1 = r then Option.some w1 else storeGet rest r
        rw [if_pos h2]
      · rw [if_neg h2, ih]
        show _ = if q1 = r then Option.some w1 else storeGet rest r
        rw [if_neg h2]

/-! ## Claim theorems -/

/-- C1 (counterexample).  The claim lists a Gateway result whose error
text contains "4010" as a boundary case on which `_handle_expired_token`
must return false; but "401" is a substring of "4010", so the source
predicate (`status_code == 401 or "401" in error_msg`) returns true on
the result with no status code and error text "HTTP 4010". -/
theorem breaker_fires_on_4010_decoy :
    handleExpiredToken (mkResult Option.none (Option.some "HTTP 4010")) = true := by
  decide

/-- C1 (amended).  `_handle_expired_token` returns true exactly when
the status code equals the integer 401 or the error text contains the
substring "401" - including an error text containing "4010", since
"401" is a substring of it; it returns false on the boundary cases
status code absent/None with error absent, and status code 200 with an
error text not containing "401". -/
theorem breaker_classification :
    (∀ (sc : Option Int) (err : Option String),
       handleExpiredToken (mkResult sc err) = true ↔
         (sc = Option.some 401 ∨ strContains (err.getD "") "401" = true))
    ∧ handleExpiredToken (mkResult Option.none Option.none) = false
    ∧ handleExpiredToken (mkResult (Option.some 200) (Option.some "request ok")) = false
    ∧ handleExpiredToken (mkResult (Option.some 401) Option.none) = true
    ∧ handleExpiredToken (mkResult Option.none (Option.some "HTTP 4010")) = true := by
  refine ⟨?_, by decide, by decide, by decide, by decide⟩
  intro sc err
  cases sc with
  | none =>
    cases err with
    | none =>
      simp [handleExpiredToken, mkResult, isInt401, PyVal.get, getCell, PyVal.truthy, pyStr]
    | some e =>
      by_cases he : e = ""
      · subst he
        simp [handleExpiredToken, mkResult, isInt401, PyVal.get, getCell, PyVal.truthy, pyStr]
      · simp [handleExpiredToken, mkResult, isInt401, PyVal.get, getCell, PyVal.truthy,
          pyStr, he]
  | some n =>
    cases err with
    | none =>
      simp [handleExpiredToken, mkResult, isInt401, PyVal.get, getCell, PyVal.truthy,
        pyStr, Option.getD]
    | some e =>
      by_cases he : e = ""
      · subst he
        simp [handleExpiredToken, mkResult, isInt401, PyVal.get, getCell, PyVal.truthy,
          pyStr, Option.getD]
      · simp [handleExpiredToken, mkResult, isInt401, PyVal.get, getCell, PyVal.truthy,
          pyStr, Option.getD, he]

/-- C2 (code bug).  When the state-change call inside
`deactivate_account_with_note` returns the 401 envelope, the composite
outcome nests it under `deactivate_response` and carries no top-level
`status_code` and a `None` error, so `_handle_expired_token` returns
false on it and `call_deactivate_accounts` continues past the row: on a
two-row batch the loop does not halt and processes the second row (four
outcome entries, two per row, because of the duplicate append). -/
theorem driver_continues_after_nested_401 :
    ((opExpired (PyVal.str "id1") PyVal.none).get "deactivate_response").get "status_code"
      = PyVal.int 401
    ∧ handleExpiredToken (opExpired (PyVal.str "id1") PyVal.none) = false
    ∧ (deactivateLoop ["BUS ID", "account_id"] [] Option.none PyVal.none opExpired
        [rowB1, rowB2]).halted = false
    ∧ (deactivateLoop ["BUS ID", "account_id"] [] Option.none PyVal.none opExpired
        [rowB1, rowB2]).results.length = 4 := by
  refine ⟨rfl, by decide, rfl, rfl⟩

/-- C3 (code bug).  Each lifecycle row is appended twice: the drivers
append the outcome explicitly (account_tasks.py lines 361-364 and
481-484) and `_append_result_and_handle_token` appends the same outcome
again (line 59).  A single-row batch therefore produces two identical
outcome entries, in both drivers. -/
theorem driver_appends_duplicate_outcomes :
    (deactivateLoop ["BUS ID", "account_id"] [] Option.none PyVal.none opOk
        [rowB1]).results.length = 2
    ∧ (deactivateLoop ["BUS ID", "account_id"] [] Option.none PyVal.none opOk
        [rowB1]).results.head?
      = (deactivateLoop ["BUS ID", "account_id"] [] Option.none PyVal.none opOk
        [rowB1]).results.getLast?
    ∧ (reactivateLoop ["BUS ID", "account_id"] [] Option.none opReactOk
        [rowB1]).results.length = 2
    ∧ (reactivateLoop ["BUS ID", "account_id"] [] Option.none opReactOk
        [rowB1]).results.head?
      = (reactivateLoop ["BUS ID", "account_id"] [] Option.none opReactOk
        [rowB1]).results.getLast? := by
  refine ⟨rfl, rfl, rfl, rfl⟩

/-- C4.  In `deactivate_account_with_note`, a note-creation stage that
raises after a successful state change yields `deactivated=True`,
`note_created=False` and `error=str(exc)` (non-empty when the exception
text is); a state-change stage that raises yields `deactivated=False`,
`note_created=False` and its own message - each stage failure is
recorded independently, and the outcome is returned, never raised. -/
theorem stage_independence (aid reason performedBy dresp : PyVal) (msg : String)
    (nCall : String → Except String PyVal) (h : msg ≠ "") :
    ((deactivateWithNote aid reason performedBy (Except.ok dresp)
        (fun _ => Except.error msg)).get "deactivated" = PyVal.bool true
     ∧ (deactivateWithNote aid reason performedBy (Except.ok dresp)
        (fun _ => Except.error msg)).get "note_created" = PyVal.bool false
     ∧ (deactivateWithNote aid reason performedBy (Except.ok dresp)
        (fun _ => Except.error msg)).get "error" = PyVal.str msg
     ∧ pyStr ((deactivateWithNote aid reason performedBy (Except.ok dresp)
        (fun _ => Except.error msg)).get "error") ≠ "")
    ∧ ((deactivateWithNote aid reason performedBy (Except.error msg) nCall).get
        "deactivated" = PyVal.bool false
       ∧ (deactivateWithNote aid reason performedBy (Except.error msg) nCall).get
        "note_created" = PyVal.bool false
       ∧ (deactivateWithNote aid reason performedBy (Except.error msg) nCall).get
        "error" = PyVal.str msg) := by
  exact ⟨⟨rfl, rfl, rfl, h⟩, rfl, rfl, rfl⟩

/-- Witness for C4 at a concrete input. -/
theorem stage_independence_witness :
    (deactivateWithNote (PyVal.str "id9") PyVal.none (PyVal.str "ops")
       (Except.ok (PyVal.dict [])) (fun _ => Except.error "note POST failed")).get
      "deactivated" = PyVal.bool true
    ∧ (deactivateWithNote (PyVal.str "id9") PyVal.none (PyVal.str "ops")
       (Except.ok (PyVal.dict [])) (fun _ => Except.error "note POST failed")).get
      "error" = PyVal.str "note POST failed" :=
  ⟨(stage_independence (PyVal.str "id9") PyVal.none (PyVal.str "ops") (PyVal.dict [])
      "note POST failed" (fun _ => Except.ok (PyVal.dict [])) (by decide)).1.1,
   (stage_independence (PyVal.str "id9") PyVal.none (PyVal.str "ops") (PyVal.dict [])
      "note POST failed" (fun _ => Except.ok (PyVal.dict [])) (by decide)).1.2.2.1⟩

/-- C5 (counterexample).  On a row whose identifier cell is NA, whose
first key column holds a single space and whose second key column holds
the key "X" of an existing record, the resolver issues no Gateway call
and leaves the identifier NA: the source takes the first non-NA key
column (`pd.notna`), strips it to the empty string and skips the row,
instead of taking the first non-empty value "X" as the claim states. -/
theorem resolver_skips_whitespace_key_row :
    resolveAccountIds ["A", "B", "account_id"] ["A", "B"] "account_id"
        (lookupViaGateway storeC5) [rowC5]
      = Except.ok (["A", "B", "account_id"], ⟨[rowC5], [], false⟩)
    ∧ (lookupViaGateway storeC5 "X").get "account_id" = PyVal.str "id-X" := by
  refine ⟨rfl, rfl⟩

/-- C5 (amended).  Per-row behaviour of the resolver loop: a row whose
identifier cell is non-NA (even an empty string) is left untouched with
no Gateway call; a row with no non-NA key column, or whose first non-NA
key column strips to the empty string (even when a later key column is
non-empty), is left untouched with no Gateway call and a still-NA
identifier; otherwise the Gateway is queried with the stripped key and,
unless the breaker fires, the `account_id` field of the response
(possibly `None`) is written into the identifier column; when the
breaker fires the pass stops with all remaining rows untouched. -/
theorem resolver_row_characterization
    (cols busCols : List String) (idCol : String) (lookup : String → PyVal)
    (row : List (String × PyVal)) (rest : List (List (String × PyVal))) :
    (notNa (getCell row idCol) = true →
       resolveLoop cols busCols idCol lookup (row :: rest)
         = ⟨row :: (resolveLoop cols busCols idCol lookup rest).rows,
            (resolveLoop cols busCols idCol lookup rest).calls,
            (resolveLoop cols busCols idCol lookup rest).halted⟩)
    ∧ (notNa (getCell row idCol) = false →
       firstNotNaStrip cols busCols row = Option.none →
       resolveLoop cols busCols idCol lookup (row :: rest)
         = ⟨row :: (resolveLoop cols busCols idCol lookup rest).rows,
            (resolveLoop cols busCols idCol lookup rest).calls,
            (resolveLoop cols busCols idCol lookup rest).halted⟩)
    ∧ (notNa (getCell row idCol) = false →
       firstNotNaStrip cols busCols row = Option.some "" →
       resolveLoop cols busCols idCol lookup (row :: rest)
         = ⟨row :: (resolveLoop cols busCols idCol lookup rest).rows,
            (resolveLoop cols busCols idCol lookup rest).calls,
            (resolveLoop cols busCols idCol lookup rest).halted⟩)
    ∧ (∀ s : String, notNa (getCell row idCol) = false →
       firstNotNaStrip cols busCols row = Option.some s → s ≠ "" →
       handleExpiredToken (lookup s) = false →
       resolveLoop cols busCols idCol lookup (row :: rest)
         = ⟨setKey row idCol ((lookup s).get "account_id")
              :: (resolveLoop cols busCols idCol lookup rest).rows,
            s :: (resolveLoop cols busCols idCol lookup rest).calls,
            (resolveLoop cols busCols idCol lookup rest).halted⟩)
    ∧ (∀ s : String, notNa (getCell row idCol) = false →
       firstNotNaStrip cols busCols row = Option.some s → s ≠ "" →
       handleExpiredToken (lookup s) = true →
       resolveLoop cols busCols idCol lookup (row :: rest)
         = ⟨row :: rest, [s], true⟩) := by
  refine ⟨?_, ?_, ?_, ?_, ?_⟩
  · intro h
    simp [resolveLoop, h]
  · intro h hb
    simp [resolveLoop, h, hb]
  · intro h hb
    simp [resolveLoop, h, hb]
  · intro s h hb hne hfat
    simp [resolveLoop, h, hb, hne, hfat]
  · intro s h hb hne hfat
    simp [resolveLoop, h, hb, hne, hfat]

/-- Witness for C5 (amended) at concrete inputs: an already-resolved
row is passed through unchanged, and an unresolved row with key "B7"
gets the identifier of the lookup response written. -/
theorem resolver_row_characterization_witness :
    resolveLoop ["BUS ID", "account_id"] ["BUS ID"] "account_id" lkW
        [[("BUS ID", PyVal.str "B1"), ("account_id", PyVal.str "idX")]]
      = ⟨[[("BUS ID", PyVal.str "B1"), ("account_id", PyVal.str "idX")]], [], false⟩
    ∧ resolveLoop ["BUS ID", "account_id"] ["BUS ID"] "account_id" lkW
        [[("BUS ID", PyVal.str "B7"), ("account_id", PyVal.none)]]
      = ⟨[setKey [("BUS ID", PyVal.str "B7"), ("account_id", PyVal.none)] "account_id"
            ((lkW "B7").get "account_id")], ["B7"], false⟩ :=
  ⟨(resolver_row_characterization ["BUS ID", "account_id"] ["BUS ID"] "account_id" lkW
      [("BUS ID", PyVal.str "B1"), ("account_id", PyVal.str "idX")] []).1 (by decide),
   (resolver_row_characterization ["BUS ID", "account_id"] ["BUS ID"] "account_id" lkW
      [("BUS ID", PyVal.str "B7"), ("account_id", PyVal.none)] []).2.2.2.1 "B7"
     (by decide) (by decide) (by decide) (by decide)⟩

/-- C6 (code bug).  The note body built by `deactivate_account_with_note`
is the reason followed by the attribution line; it does not contain
`DEACTIVATION_SIGNATURE` ("This account was deactivated on "), so the
reverse-chronological, signature-filtered lookup of
`find_last_deactivation_note_for_account` returns `None` on a record
whose only note is the one the deactivation just created - even though
the composite outcome reports the note as created. -/
theorem deactivation_note_lacks_signature :
    noteBody (PyVal.str "stale") (PyVal.str "ops")
      = "stale<br>Action performed by: ops<br>"
    ∧ strContains (noteBody (PyVal.str "stale") (PyVal.str "ops"))
        DEACTIVATION_SIGNATURE = false
    ∧ findLastDeactivationNote (annotationsQuery
        [⟨5, noteBody (PyVal.str "stale") (PyVal.str "ops"), "n1"⟩]) = PyVal.none
    ∧ (deactivateWithNote (PyVal.str "id1") (PyVal.str "stale") (PyVal.str "ops")
        (Except.ok envOk204) (fun _ => Except.ok envNoteOk)).get "note_created"
      = PyVal.bool true := by
  refine ⟨by decide, by decide, rfl, rfl⟩

/-- C7.  When no caller-supplied note id is given and no note of the
record contains the deactivation signature, the signature lookup
returns `None` and `reactivate_account_and_delete_note` (with a
state-change call that returns) reports `reactivated=True`,
`note_deleted=False` and a `None` error - a valid terminal outcome, not
an error. -/
theorem missing_note_tolerance (aid rresp : PyVal) (delCall : PyVal → PyVal)
    (notes : List Note)
    (h : ∀ n ∈ notes, strContains n.notetext DEACTIVATION_SIGNATURE = false) :
    findLastDeactivationNote (annotationsQuery notes) = PyVal.none
    ∧ (reactivateAndDeleteNote aid PyVal.none (Except.ok rresp)
        (findLastDeactivationNote (annotationsQuery notes)) delCall).get "reactivated"
      = PyVal.bool true
    ∧ (reactivateAndDeleteNote aid PyVal.none (Except.ok rresp)
        (findLastDeactivationNote (annotationsQuery notes)) delCall).get "note_deleted"
      = PyVal.bool false
    ∧ (reactivateAndDeleteNote aid PyVal.none (Except.ok rresp)
        (findLastDeactivationNote (annotationsQuery notes)) delCall).get "error"
      = PyVal.none := by
  have hfil : (sortByCreatedDesc notes).filter
      (fun n => strContains n.notetext DEACTIVATION_SIGNATURE) = [] :=
    filter_nil_of_all_false _ _ (fun a ha => h a (mem_sortByCreatedDesc ha))
  have hfind : findLastDeactivationNote (annotationsQuery notes) = PyVal.none := by
    simp [annotationsQuery, hfil, findLastDeactivationNote, PyVal.get, getCell, PyVal.truthy]
  rw [hfind]
  exact ⟨rfl, rfl, rfl, rfl⟩

/-- Witness for C7: a record whose only note is an ordinary remark. -/
theorem missing_note_tolerance_witness :
    (reactivateAndDeleteNote (PyVal.str "id1") PyVal.none
        (Except.ok (PyVal.dict []))
        (findLastDeactivationNote (annotationsQuery [⟨3, "ordinary remark", "n1"⟩]))
        (fun _ => PyVal.dict [])).get "reactivated" = PyVal.bool true
    ∧ (reactivateAndDeleteNote (PyVal.str "id1") PyVal.none
        (Except.ok (PyVal.dict []))
        (findLastDeactivationNote (annotationsQuery [⟨3, "ordinary remark", "n1"⟩]))
        (fun _ => PyVal.dict [])).get "error" = PyVal.none :=
  ⟨(missing_note_tolerance (PyVal.str "id1") (PyVal.dict []) (fun _ => PyVal.dict [])
      [⟨3, "ordinary remark", "n1"⟩] (by decide)).2.1,
   (missing_note_tolerance (PyVal.str "id1") (PyVal.dict []) (fun _ => PyVal.dict [])
      [⟨3, "ordinary remark", "n1"⟩] (by decide)).2.2.2⟩

/-- C8 (counterexample).  A 200 response whose JSON payload itself
contains an "error" key is merged over the success envelope, producing
`status="success"` together with a non-empty `error` - the claimed
equivalence between `status == "error"` and a non-empty error field
fails on this envelope. -/
theorem gateway_envelope_iff_counterexample :
    envC8bad.get "status" = PyVal.str "success"
    ∧ envC8bad.get "error" = PyVal.str "boom"
    ∧ ¬ (envC8bad.get "status" = PyVal.str "error" ↔
          (envC8bad.get "error").truthy = true) := by
  refine ⟨rfl, rfl, fun h => ?_⟩
  have h2 : PyVal.str "success" = PyVal.str "error" := h.mpr rfl
  injection h2 with h3
  exact absurd h3 (by decide)

/-- C8 (amended).  `call_dataverse` never raises: every transport
outcome maps to an envelope.  A 401 response always yields
`status="error"`, `status_code=401` and the fixed expiry message; a
pre-response exception and any other 4xx/5xx response yield
`status="error"` with a non-empty error text and (for HTTP errors) the
numeric status code; and a success response whose payload does not
itself carry "status"/"error"/"status_code" keys yields
`status="success"`, an absent error and the HTTP status code - so the
claimed equivalence holds on every envelope whose payload does not
override those reserved keys. -/
theorem gateway_envelope_classification :
    (∀ body : HttpBody,
       (callDataverse "GET" (HttpResult.resp 401 body)).get "status" = PyVal.str "error"
       ∧ (callDataverse "GET" (HttpResult.resp 401 body)).get "status_code" = PyVal.int 401
       ∧ (callDataverse "GET" (HttpResult.resp 401 body)).get "error"
           = PyVal.str "401 Unauthorized: access token expired or invalid")
    ∧ (∀ msg : String,
       (callDataverse "GET" (HttpResult.exn msg)).get "status" = PyVal.str "error"
       ∧ pyStr ((callDataverse "GET" (HttpResult.exn msg)).get "error") ≠ "")
    ∧ (∀ (code : Nat) (body : HttpBody), 400 ≤ code → code < 600 → code ≠ 401 →
       (callDataverse "GET" (HttpResult.resp code body)).get "status" = PyVal.str "error"
       ∧ (callDataverse "GET" (HttpResult.resp code body)).get "status_code" = PyVal.int code
       ∧ pyStr ((callDataverse "GET" (HttpResult.resp code body)).get "error") ≠ "")
    ∧ (∀ (code : Nat) (payload : List (String × PyVal)), code < 400 →
       ¬ "status" ∈ payload.map Prod.fst →
       ¬ "error" ∈ payload.map Prod.fst →
       ¬ "status_code" ∈ payload.map Prod.fst →
       (callDataverse "GET" (HttpResult.resp code (HttpBody.json payload))).get "status"
           = PyVal.str "success"
       ∧ (callDataverse "GET" (HttpResult.resp code (HttpBody.json payload))).get "error"
           = PyVal.none
       ∧ (callDataverse "GET" (HttpResult.resp code (HttpBody.json payload))).get
           "status_code" = PyVal.int code) := by
  refine ⟨fun body => ⟨rfl, rfl, rfl⟩, ?_, ?_, ?_⟩
  · intro msg
    refine ⟨rfl, ?_⟩
    intro hc
    have hc2 : ("Unexpected error: " ++ msg) = "" := hc
    have h2 := congrArg String.data hc2
    rw [String.data_append] at h2
    simp at h2
  · intro code body h1 h2 h3
    have hguard : (400 ≤ code && code < 600) = true := by simp [h1, h2]
    have hst : (callDataverse "GET" (HttpResult.resp code body)).get "status"
        = PyVal.str "error" := by
      simp [callDataverse, allowedMethods, upperStr, upperChar, hguard, h3, errEnvelope,
        PyVal.get, getCell]
    have hsc : (callDataverse "GET" (HttpResult.resp code body)).get "status_code"
        = PyVal.int code := by
      simp [callDataverse, allowedMethods, upperStr, upperChar, hguard, h3, errEnvelope,
        PyVal.get, getCell]
    have herr : (callDataverse "GET" (HttpResult.resp code body)).get "error"
        = PyVal.str ("HTTP " ++ toString (code : Int)) := by
      simp [callDataverse, allowedMethods, upperStr, upperChar, hguard, h3, errEnvelope,
        PyVal.get, getCell]
    refine ⟨hst, hsc, ?_⟩
    rw [herr]
    intro hc
    have hc2 : ("HTTP " ++ toString (code : Int)) = "" := hc
    have h4 := congrArg String.data hc2
    rw [String.data_append] at h4
    simp at h4
  · intro code payload hc hs he hsc
    have hguard : (400 ≤ code && code < 600) = false := by
      simp [Nat.not_le.mpr hc]
    have henv : callDataverse "GET" (HttpResult.resp code (HttpBody.json payload))
        = .dict (mergeInto
            [("status", .str "success"), ("status_code", .int code)] payload) := by
      simp [callDataverse, allowedMethods, upperStr, upperChar, hguard]
    rw [henv]
    refine ⟨?_, ?_, ?_⟩
    · show getCell (mergeInto _ payload) "status" = _
      rw [getCell_mergeInto _ _ _ hs]; rfl
    · show getCell (mergeInto _ payload) "error" = _
      rw [getCell_mergeInto _ _ _ he]; rfl
    · show getCell (mergeInto _ payload) "status_code" = _
      rw [getCell_mergeInto _ _ _ hsc]; rfl

/-- Witness for C8 (amended) at concrete inputs: a 503 response and a
clean 200 response. -/
theorem gateway_envelope_classification_witness :
    (callDataverse "GET" (HttpResult.resp 503 HttpBody.empty)).get "status"
      = PyVal.str "error"
    ∧ (callDataverse "GET" (HttpResult.resp 200
        (HttpBody.json [("value", PyVal.list [])]))).get "error" = PyVal.none :=
  ⟨(gateway_envelope_classification.2.2.1 503 HttpBody.empty
      (by decide) (by decide) (by decide)).1,
   (gateway_envelope_classification.2.2.2 200 [("value", PyVal.list [])]
      (by decide) (by decide) (by decide) (by decide)).2.1⟩

/-- C9.  On a DataFrame argument, the mutating prefix of both drivers
(`_load_df` copy, resolver copy, identifier writes on the second copy)
never changes the frame behind the caller reference: what the caller
holds before the run is exactly what it holds after. -/
theorem dataframe_input_not_mutated (s : Store) (r : Nat)
    (v : List (List (String × PyVal))) (cols busCols0 : List String)
    (lookup : String → PyVal) (h : storeGet s r = Option.some v) :
    storeGet (loadAndResolveStore s r cols busCols0 lookup).1 r = Option.some v := by
  have hle : r ≤ storeMax s := storeGet_le_max s r v h
  have h1 : r ≠ storeMax s + 1 := by omega
  have hmax2 : storeMax ((storeMax s + 1, v) :: s) = storeMax s + 1 := by
    simp only [storeMax]; omega
  have h2 : r ≠ storeMax ((storeMax s + 1, v) :: s) + 1 := by rw [hmax2]; omega
  simp only [loadAndResolveStore, h, storeAlloc]
  cases hres : resolveAccountIds cols busCols0 "account_id" lookup v with
  | error e =>
    simp only
    show storeGet ((storeMax ((storeMax s + 1, v) :: s) + 1, v) :: (storeMax s + 1, v) :: s) r
      = Option.some v
    rw [show storeGet ((storeMax ((storeMax s + 1, v) :: s) + 1, v) :: (storeMax s + 1, v) :: s) r
        = storeGet ((storeMax s + 1, v) :: s) r from by
      show (if storeMax ((storeMax s + 1, v) :: s) + 1 = r then _ else _) = _
      rw [if_neg (fun hh => h2 hh.symm)]]
    show (if storeMax s + 1 = r then Option.some v else storeGet s r) = _
    rw [if_neg (fun hh => h1 hh.symm), h]
  | ok out =>
    simp only
    rw [storeGet_set_ne _ _ _ _ (by rw [hmax2] at h2 ⊢; exact h2)]
    show storeGet ((storeMax ((storeMax s + 1, v) :: s) + 1, v) :: (storeMax s + 1, v) :: s) r
      = Option.some v
    rw [show storeGet ((storeMax ((storeMax s + 1, v) :: s) + 1, v) :: (storeMax s + 1, v) :: s) r
        = storeGet ((storeMax s + 1, v) :: s) r from by
      show (if storeMax ((storeMax s + 1, v) :: s) + 1 = r then _ else _) = _
      rw [if_neg (fun hh => h2 hh.symm)]]
    show (if storeMax s + 1 = r then Option.some v else storeGet s r) = _
    rw [if_neg (fun hh => h1 hh.symm), h]

/-- Witness for C9: a one-frame store, resolved with an always-found
lookup; the caller frame is unchanged. -/
theorem dataframe_input_not_mutated_witness :
    storeGet (loadAndResolveStore [(1, [[("BUS ID", PyVal.str "B1")]])] 1
      ["BUS ID"] [] lkW).1 1 = Option.some [[("BUS ID", PyVal.str "B1")]] :=
  dataframe_input_not_mutated [(1, [[("BUS ID", PyVal.str "B1")]])] 1
    [[("BUS ID", PyVal.str "B1")]] ["BUS ID"] [] lkW rfl

/-- C10.  With `output_path=None`, `call_reactivate_accounts` saves to
the same default file as `call_deactivate_accounts`
(`deactivated_accounts_results.xlsx` under the data directory), because
it too passes `DEFAULT_OUTPUT_PATH` to `_save_results_with_logging`;
the reactivation-specific name constant differs from that file name and
is used by neither driver, so a default-path reactivation run
overwrites a previously saved deactivation report. -/
theorem reactivation_uses_deactivation_default_path (dataDir : String) :
    reactivateSavePath dataDir Option.none = deactivateSavePath dataDir Option.none
    ∧ reactivateSavePath dataDir Option.none
        = dataDir ++ "/deactivated_accounts_results.xlsx"
    ∧ DEFAULT_REACTIVATION_OUTPUT_NAME ≠ "deactivated_accounts_results.xlsx" :=
  ⟨rfl, rfl, by decide⟩

end DataverseApi
